import Mathlib

/-!
# jira-confluence-backup: a shallow embedding of `jira-confluence-backup.go`

The program logs in, triggers a backup, polls a progress endpoint until a file
name is produced and downloads the archive.  The embedding keeps the mutable
part of `Atlassian` (`startTime`, `errors`) as an explicit state, replaces the
network and the clock by explicit inputs (one `Tick` per loop iteration) and
records the observable effects (sleeps and issued requests) as a list of
`Event`s.  `log.Fatal*` and a nil-pointer panic are outcomes of their own.
Calls of `log.Print*` have no influence on control flow and are left out,
except for the evaluation of their arguments where that can fail.
-/

namespace JiraConfluenceBackup

/-! ## Constants -/

def LOGIN_URI : String := "/rest/auth/1/session"
def CONFLUENCE_BACKUP_URI : String := "/wiki/rest/obm/1.0/runbackup.json"
def CONFLUENCE_PROGRESS_URI : String := "/wiki/rest/obm/1.0/getprogress.json"
def CONFLUENCE_DOWLOAD_URI : String := "/wiki/download"
def JIRA_BACKUP_URI : String := "/rest/backup/1/export/runbackup"
def JIRA_LAST_TASK_URI : String := "/rest/backup/1/export/lastTaskId"
def JIRA_PROGRESS_URI : String := "/rest/internal/2/task/progress"
def JIRA_DOWLOAD_URI : String := "/plugins/servlet/export/download"

/-! ## Data model -/

/-- The `Config` struct.  `Url` is the rendered base url (`config.Url.String()`),
`Timeout` a `time.Duration`, that is an int64 number of nanoseconds. -/
structure Config where
  Confluence : Bool
  Jira : Bool
  Url : String
  User : String
  Password : String
  File : String
  Timeout : Int
  Attachments : Bool
  ExportToCloud : Bool
  deriving DecidableEq, Repr

/-- The `Atlassian` struct without its two http clients (they differ only in
their timeout, which `doRequest` records in the issued request). -/
structure Atlassian where
  config : Config
  startTime : Int
  errors : Int
  deriving DecidableEq, Repr

/-- Two's complement wrap-around of a mathematical integer into int64. -/
def wrap64 (x : Int) : Int :=
  (x + 9223372036854775808) % 18446744073709551616 - 9223372036854775808

/-- What the program sees of an `*http.Response`: the status code and the body
stream.  `Body = none` stands for a body whose reading fails (for instance a
body that is already closed). -/
structure Response where
  StatusCode : Int
  Body : Option String
  deriving DecidableEq, Repr

/-- The answer of the environment to one call of `doRequest`. -/
inductive Answer where
  /-- `http.NewRequest` returns an error (the url does not parse). -/
  | newRequestError
  /-- `client.Do` returns `err != nil`; the response is nil, except when a
  redirect policy failed, where it is non-nil with a closed body. -/
  | failed (resp : Option Response)
  /-- `client.Do` returns a response and `err == nil`. -/
  | ok (resp : Response)
  deriving DecidableEq, Repr

/-- The observable effects. -/
inductive Event where
  /-- `time.Sleep(d)`, `d` in nanoseconds. -/
  | sleep (d : Int)
  /-- A request handed to `client.Do`. -/
  | request (method url : String) (body : Option String) (longTimeOut : Bool)
  deriving DecidableEq, Repr

/-- Whether an event is an issued http request. -/
def Event.isRequest : Event → Bool
  | .request _ _ _ _ => true
  | .sleep _ => false

/-- The result of `doRequest`: either the process died in `log.Fatalf`, or the
pair `(resp, err)` came back. -/
inductive DoResult where
  | fatal (msg : String)
  | error (resp : Option Response)
  | response (resp : Response)
  deriving DecidableEq, Repr

/-- The method `doRequest`: builds the request for `config.Url.String()+uri`,
dies when that fails, and otherwise hands it to one of the two clients. -/
def doRequest (atl : Atlassian) (method uri : String) (body : Option String)
    (longTimeOut : Bool) (ans : Answer) : List Event × DoResult :=
  match ans with
  | .newRequestError => ([], .fatal "Unable to create http request, error: %v")
  | .failed resp => ([.request method (atl.config.Url ++ uri) body longTimeOut], .error resp)
  | .ok resp => ([.request method (atl.config.Url ++ uri) body longTimeOut], .response resp)

/-- The function `getBody` on a possibly nil response: `none` is the nil-pointer
panic of `resp.Body` on a nil `resp`; a body that cannot be read gives `""`. -/
def getBody (resp : Option Response) : Option String :=
  match resp with
  | none => none
  | some r => some (r.Body.getD "")

/-! ## `sleepAndWait` -/

/-- The outcome of `sleepAndWait`: `log.Fatal`, or a sleep followed by
`return true`. -/
inductive Wait where
  | fatal (msg : String)
  | slept (d : Int)
  deriving DecidableEq, Repr

/-- The method `sleepAndWait`; `now` is the value of `time.Now().UnixNano()`.
The sum `atl.startTime + atl.config.Timeout.Nanoseconds()` is an int64 sum. -/
def sleepAndWait (atl : Atlassian) (now : Int) : Wait :=
  if atl.errors > 4 then
    .fatal "Too many http errors while retrieving backup progress"
  else if wrap64 (atl.startTime + atl.config.Timeout) < now then
    .fatal "Timeout while waiting for backup completion"
  else
    .slept (1000000000 * 10)

/-! ## The poll loops -/

/-- The inputs one loop iteration consumes: the clock reading of
`sleepAndWait`, and for each of the (at most two) requests of the iteration the
value of `time.Now().Unix()` and the answer of the environment.  The wiki loop
uses only the first request. -/
structure Tick where
  now : Int
  stamp1 : Int
  answer1 : Answer
  stamp2 : Int
  answer2 : Answer
  deriving DecidableEq, Repr

/-- How one pass through a loop ends. -/
inductive Step where
  /-- `continue`, or the end of the loop body: on to the next iteration. -/
  | next (atl : Atlassian)
  /-- `break`: the function returns `filename`. -/
  | done (filename : String) (atl : Atlassian)
  /-- `log.Fatal`: the process exits. -/
  | fatal (msg : String)
  /-- Nil pointer dereference. -/
  | panic
  deriving DecidableEq, Repr

/-- One pass through a loop: its effects and how it ends. -/
structure Iter where
  events : List Event
  step : Step
  deriving DecidableEq, Repr

/-- The statement `atl.errors++`.  The counter is an int64; every increment
in the program follows a successful `sleepAndWait`, hence happens at a value of
at most 4, where int64 addition is exact. -/
def incErrors (atl : Atlassian) : Atlassian :=
  { atl with errors := atl.errors + 1 }

/-- The local struct `JsProgress` of `confluenceProgress`. -/
structure ConfluenceJsProgress where
  Completed : Bool
  FileName : String
  Size : Int
  Status : String
  Percentage : String
  ConcurrentBackupInProgress : Bool
  deriving DecidableEq, Repr

/-- The local struct `JsProgress` of `jiraProgress`. -/
structure JiraJsProgress where
  Status : String
  Progress : Int
  Description : String
  Result : String
  deriving DecidableEq, Repr

/-- The local struct `JsProgressResult` of `jiraProgress`. -/
structure JsProgressResult where
  MediaFileId : String
  FileName : String
  deriving DecidableEq, Repr

/-- The body of the `for atl.sleepAndWait()` loop of `confluenceProgress`,
the loop condition included.  `decode` is `json.NewDecoder(resp.Body).Decode`
into a zero `JsProgress` (`none` when it returns an error). -/
def confluenceBody (decode : String → Option ConfluenceJsProgress)
    (atl : Atlassian) (t : Tick) : Iter :=
  match sleepAndWait atl t.now with
  | .fatal msg => ⟨[], .fatal msg⟩
  | .slept d =>
    match doRequest atl "GET" (CONFLUENCE_PROGRESS_URI ++ "?_=" ++ toString t.stamp1)
        none false t.answer1 with
    | (ev, .fatal msg) => ⟨.sleep d :: ev, .fatal msg⟩
    | (ev, .error _) => ⟨.sleep d :: ev, .next (incErrors atl)⟩
    | (ev, .response resp) =>
      if resp.StatusCode ≠ 200 then ⟨.sleep d :: ev, .next (incErrors atl)⟩
      else
        match resp.Body.bind decode with
        | none => ⟨.sleep d :: ev, .next (incErrors atl)⟩
        | some jsProgress =>
          if jsProgress.FileName ≠ "" then ⟨.sleep d :: ev, .done jsProgress.FileName atl⟩
          else ⟨.sleep d :: ev, .next atl⟩

/-- The body of the `for atl.sleepAndWait()` loop of `jiraProgress`, the loop
condition included.  `decode` is `json.NewDecoder(resp.Body).Decode` into a zero
`JsProgress`, `unmarshal` is `json.Unmarshal` into a zero `JsProgressResult`. -/
def jiraBody (decode : String → Option JiraJsProgress)
    (unmarshal : String → Option JsProgressResult)
    (atl : Atlassian) (t : Tick) : Iter :=
  match sleepAndWait atl t.now with
  | .fatal msg => ⟨[], .fatal msg⟩
  | .slept d =>
    match doRequest atl "GET" (JIRA_LAST_TASK_URI ++ "?_=" ++ toString t.stamp1)
        none false t.answer1 with
    | (ev1, .fatal msg) => ⟨.sleep d :: ev1, .fatal msg⟩
    | (ev1, .error resp) =>
      -- the log line evaluates `getBody(resp)` before the counter is touched
      match getBody resp with
      | none => ⟨.sleep d :: ev1, .panic⟩
      | some _ => ⟨.sleep d :: ev1, .next (incErrors atl)⟩
    | (ev1, .response resp1) =>
      match getBody (some resp1) with
      | none => ⟨.sleep d :: ev1, .panic⟩
      | some taskId =>
        match doRequest atl "GET"
            (JIRA_PROGRESS_URI ++ "/" ++ taskId ++ "?_=" ++ toString t.stamp2)
            none false t.answer2 with
        | (ev2, .fatal msg) => ⟨.sleep d :: (ev1 ++ ev2), .fatal msg⟩
        | (ev2, .error _) => ⟨.sleep d :: (ev1 ++ ev2), .next (incErrors atl)⟩
        | (ev2, .response resp) =>
          if resp.StatusCode ≠ 200 then ⟨.sleep d :: (ev1 ++ ev2), .next (incErrors atl)⟩
          else
            match resp.Body.bind decode with
            | none => ⟨.sleep d :: (ev1 ++ ev2), .next (incErrors atl)⟩
            | some jsProgress =>
              if jsProgress.Status = "Success" then
                match unmarshal jsProgress.Result with
                | none => ⟨.sleep d :: (ev1 ++ ev2), .next (incErrors atl)⟩
                | some jsProgressResult =>
                  ⟨.sleep d :: (ev1 ++ ev2),
                    .done (jsProgressResult.MediaFileId ++ "/" ++ jsProgressResult.FileName) atl⟩
              else ⟨.sleep d :: (ev1 ++ ev2), .next atl⟩

/-- The loop `for atl.sleepAndWait() { ... }` run on a finite supply of
inputs: the list of passes made, each with the state it started from.  The
loop stops at the first pass that does not end in `Step.next`. -/
def pollLoop (body : Atlassian → Tick → Iter) : Atlassian → List Tick → List (Atlassian × Iter)
  | _, [] => []
  | atl, t :: ts =>
    (atl, body atl t) ::
      match (body atl t).step with
      | .next atl' => pollLoop body atl' ts
      | _ => []

/-- The method `confluenceProgress`, as the list of passes of its loop. -/
def confluenceProgress (decode : String → Option ConfluenceJsProgress)
    (atl : Atlassian) (ticks : List Tick) : List (Atlassian × Iter) :=
  pollLoop (confluenceBody decode) atl ticks

/-- The method `jiraProgress`, as the list of passes of its loop. -/
def jiraProgress (decode : String → Option JiraJsProgress)
    (unmarshal : String → Option JsProgressResult)
    (atl : Atlassian) (ticks : List Tick) : List (Atlassian × Iter) :=
  pollLoop (jiraBody decode unmarshal) atl ticks

/-- The value a poll method returns: the file name of the pass that ended in
`break`, if the run got there. -/
def returnValue (run : List (Atlassian × Iter)) : Option String :=
  match run.getLast? with
  | some (_, ⟨_, .done filename _⟩) => some filename
  | _ => none

/-- A pass ended as a transient failure: it went through `atl.errors++` and
`continue`. -/
def transientFailure (p : Atlassian × Iter) : Bool :=
  match p.2.step with
  | .next atl' => atl'.errors == p.1.errors + 1
  | _ => false

/-! ## The other methods -/

/-- How a method without a result ends: it returns, or the process exits in
`log.Fatalf`. -/
inductive Outcome where
  | returned
  | fatal (msg : String)
  deriving DecidableEq, Repr

/-- The method `TriggerBackup`: the request it issues and how it ends. -/
def TriggerBackup (atl : Atlassian) (ans : Answer) : List Event × Outcome :=
  let uri := if atl.config.Jira then JIRA_BACKUP_URI else CONFLUENCE_BACKUP_URI
  let attachments := if atl.config.Attachments then "true" else "false"
  let toCloud := if atl.config.ExportToCloud then "true" else "false"
  let body := "\x7b\"cbAttachments\": \"" ++ attachments ++ "\", \"exportToCloud\": \""
    ++ toCloud ++ "\" \x7d"
  match doRequest atl "POST" uri (some body) false ans with
  | (ev, .fatal msg) => (ev, .fatal msg)
  | (ev, .error _) => (ev, .fatal "Unable to trigger the backup, error: %v")
  | (ev, .response resp) =>
    if resp.StatusCode ≠ 200 then (ev, .fatal "Unable to trigger backup, status: %v, body: %s")
    else (ev, .returned)

/-- The method `GetFileName`: the choice between the two poll loops. -/
def GetFileName (decodeConfluence : String → Option ConfluenceJsProgress)
    (decodeJira : String → Option JiraJsProgress)
    (unmarshal : String → Option JsProgressResult)
    (atl : Atlassian) (ticks : List Tick) : List (Atlassian × Iter) :=
  if atl.config.Confluence then confluenceProgress decodeConfluence atl ticks
  else jiraProgress decodeJira unmarshal atl ticks

/-- The method `Download`.  `create` tells whether `os.Create` succeeds, `copy`
is the number of bytes `io.Copy` wrote (`none` when it fails). -/
def Download (atl : Atlassian) (fileName : String) (ans : Answer)
    (create : Bool) (copy : Option Int) : List Event × Outcome :=
  let uri := if atl.config.Jira then JIRA_DOWLOAD_URI else CONFLUENCE_DOWLOAD_URI
  let downloadUrl := uri ++ "/" ++ fileName
  match doRequest atl "GET" downloadUrl none true ans with
  | (ev, .fatal msg) => (ev, .fatal msg)
  | (ev, .error _) => (ev, .fatal "Unable to download backup: %v")
  | (ev, .response resp) =>
    if resp.StatusCode ≠ 200 then (ev, .fatal "Unable to download, got http status %d for %s")
    else if create = false then (ev, .fatal "Unable to open file %s for writing: %v")
    else
      match copy with
      | none => (ev, .fatal "Error during write to file %s: %v")
      | some _ => (ev, .returned)

/-- The function `Login`; `now` is the value of `time.Now().UnixNano()`.  The
creation of the cookie jar (which cannot fail for empty options) is left out. -/
def Login (config : Config) (now : Int) (ans : Answer) : List Event × Except String Atlassian :=
  let atl : Atlassian := { config := config, startTime := now, errors := 0 }
  let body := "\x7b\"username\": \"" ++ config.User ++ "\", \"password\": \""
    ++ config.Password ++ "\"\x7d"
  match doRequest atl "POST" LOGIN_URI (some body) false ans with
  | (ev, .fatal msg) => (ev, .error msg)
  | (ev, .error _) => (ev, .error "Unable to login, error: %v")
  | (ev, .response resp) =>
    if resp.StatusCode ≠ 200 then (ev, .error "Unable to login, status: %v")
    else (ev, .ok atl)

/-- The check of `LoadConfig` on the two product flags: it exits unless at
least one of them is set. -/
def LoadConfig.accepts (config : Config) : Bool :=
  !(config.Jira == false && config.Confluence == false)

/-! ## A model of `encoding/json`

The decoders the program calls belong to the Go standard library.  The loops
above take them as parameters; the concrete examples use the following model
of the library on the three struct types of the program.  Text is handled as a
list of code points.  The nesting limit of the library is not modelled.
-/

namespace GoJson

/-- A JSON value; a number keeps its literal text. -/
inductive Value where
  | null
  | bool (b : Bool)
  | number (literal : List Nat)
  | string (s : String)
  | array (elems : List Value)
  | object (members : List (String × Value))

/-- The result of a scanner: a value and the unread input, a syntax error, or
not enough fuel. -/
inductive Parsed (α : Type) where
  | ok (a : α) (rest : List Nat)
  | malformed
  | outOfFuel

/-- Whether a scan ended in a syntax error. -/
def Parsed.isMalformed {α : Type} : Parsed α → Bool
  | .malformed => true
  | _ => false

/-- The code points of a text. -/
def codes (s : String) : List Nat :=
  s.toList.map Char.toNat

/-- The text of a list of code points. -/
def text (cs : List Nat) : String :=
  String.mk (cs.map Char.ofNat)

/-- JSON white space: space, tab, carriage return, line feed. -/
def isSpace (c : Nat) : Bool :=
  c == 32 || c == 9 || c == 13 || c == 10

/-- Drops leading white space. -/
def skipSpace : List Nat → List Nat
  | [] => []
  | c :: cs => if isSpace c then skipSpace cs else c :: cs

/-- The value of a hexadecimal digit. -/
def hexDigit (c : Nat) : Option Nat :=
  if 48 ≤ c ∧ c ≤ 57 then some (c - 48)
  else if 97 ≤ c ∧ c ≤ 102 then some (c - 87)
  else if 65 ≤ c ∧ c ≤ 70 then some (c - 55)
  else none

/-- The character a one-letter escape stands for: quote, backslash and slash
stand for themselves, `b f n r t` for the control characters 8, 12, 10, 13, 9. -/
def unescape (c : Nat) : Option Nat :=
  if c = 34 then some 34
  else if c = 92 then some 92
  else if c = 47 then some 47
  else if c = 98 then some 8
  else if c = 102 then some 12
  else if c = 110 then some 10
  else if c = 114 then some 13
  else if c = 116 then some 9
  else none

/-- Scans a string literal after its opening quote; `acc` holds the units read
so far, in reverse.  A `\uXXXX` escape gives one UTF-16 unit. -/
def scanString : List Nat → List Nat → Parsed (List Nat)
  | [], _ => .malformed
  | c :: cs, acc =>
    if c = 34 then .ok acc.reverse cs
    else if c < 32 then .malformed
    else if c = 92 then
      match cs with
      | [] => .malformed
      | e :: rest =>
        if e = 117 then
          match rest with
          | h1 :: h2 :: h3 :: h4 :: rest4 =>
            match hexDigit h1, hexDigit h2, hexDigit h3, hexDigit h4 with
            | some d1, some d2, some d3, some d4 =>
              scanString rest4 ((((d1 * 16 + d2) * 16 + d3) * 16 + d4) :: acc)
            | _, _, _, _ => .malformed
          | _ => .malformed
        else
          match unescape e with
          | some u => scanString rest (u :: acc)
          | none => .malformed
    else scanString cs (c :: acc)

/-- Joins surrogate pairs; a surrogate without its partner becomes U+FFFD.
`pending` is a high surrogate waiting for its partner. -/
def joinSurrogates : Option Nat → List Nat → List Nat
  | none, [] => []
  | some _, [] => [65533]
  | none, u :: us =>
    if 55296 ≤ u ∧ u < 56320 then joinSurrogates (some u) us
    else if 56320 ≤ u ∧ u < 57344 then 65533 :: joinSurrogates none us
    else u :: joinSurrogates none us
  | some h, u :: us =>
    if 56320 ≤ u ∧ u < 57344 then
      (65536 + (h - 55296) * 1024 + (u - 56320)) :: joinSurrogates none us
    else if 55296 ≤ u ∧ u < 56320 then 65533 :: joinSurrogates (some u) us
    else 65533 :: u :: joinSurrogates none us

/-- Splits off the leading decimal digits. -/
def takeDigits : List Nat → List Nat × List Nat
  | [] => ([], [])
  | c :: cs =>
    if 48 ≤ c ∧ c ≤ 57 then ((takeDigits cs).1.cons c, (takeDigits cs).2) else ([], c :: cs)

/-- Scans the integer part of a number: `0`, or a non-zero digit and digits. -/
def scanInt (cs : List Nat) : Option (List Nat × List Nat) :=
  match cs with
  | [] => none
  | c :: rest =>
    if c = 48 then some ([48], rest)
    else if 49 ≤ c ∧ c ≤ 57 then some (takeDigits cs)
    else none

/-- Scans an optional fraction. -/
def scanFrac (cs : List Nat) : Option (List Nat × List Nat) :=
  match cs with
  | [] => some ([], [])
  | c :: rest =>
    if c = 46 then
      if (takeDigits rest).1 = [] then none
      else some (46 :: (takeDigits rest).1, (takeDigits rest).2)
    else some ([], cs)

/-- Scans an optional exponent. -/
def scanExp (cs : List Nat) : Option (List Nat × List Nat) :=
  match cs with
  | [] => some ([], [])
  | c :: rest =>
    if c = 101 ∨ c = 69 then
      match rest with
      | [] => none
      | s :: rest2 =>
        if s = 43 ∨ s = 45 then
          if (takeDigits rest2).1 = [] then none
          else some (c :: s :: (takeDigits rest2).1, (takeDigits rest2).2)
        else if (takeDigits rest).1 = [] then none
        else some (c :: (takeDigits rest).1, (takeDigits rest).2)
    else some ([], cs)

/-- Scans a number literal. -/
def scanNumber (cs : List Nat) : Option (List Nat × List Nat) :=
  let signed := match cs with
    | [] => ([], [])
    | c :: rest => if c = 45 then ([45], rest) else ([], cs)
  match scanInt signed.2 with
  | none => none
  | some (i, r1) =>
    match scanFrac r1 with
    | none => none
    | some (f, r2) =>
      match scanExp r2 with
      | none => none
      | some (e, r3) => some (signed.1 ++ i ++ f ++ e, r3)

/-- Strips a prefix given as a list of code points. -/
def stripWord : List Nat → List Nat → Option (List Nat)
  | [], cs => some cs
  | _ :: _, [] => none
  | w :: ws, c :: cs => if w = c then stripWord ws cs else none

/-- What the scanner is reading: a value, the elements of an array after the
opening bracket, or the members of an object after the opening brace. -/
inductive Mode where
  | value
  | elems (acc : List Value)
  | members (acc : List (String × Value))

/-- The scanner, by recursive descent.  Every call uses one unit of fuel. -/
def scan : Nat → Mode → List Nat → Parsed Value
  | 0, _, _ => .outOfFuel
  | fuel + 1, .value, cs =>
    match skipSpace cs with
    | [] => .malformed
    | c :: rest =>
      if c = 123 then
        match skipSpace rest with
        | [] => .malformed
        | c2 :: rest2 =>
          if c2 = 125 then .ok (.object []) rest2 else scan fuel (.members []) (c2 :: rest2)
      else if c = 91 then
        match skipSpace rest with
        | [] => .malformed
        | c2 :: rest2 =>
          if c2 = 93 then .ok (.array []) rest2 else scan fuel (.elems []) (c2 :: rest2)
      else if c = 34 then
        match scanString rest [] with
        | .ok units r => .ok (.string (text (joinSurrogates none units))) r
        | .malformed => .malformed
        | .outOfFuel => .outOfFuel
      else if c = 116 then
        match stripWord [114, 117, 101] rest with
        | some r => .ok (.bool true) r
        | none => .malformed
      else if c = 102 then
        match stripWord [97, 108, 115, 101] rest with
        | some r => .ok (.bool false) r
        | none => .malformed
      else if c = 110 then
        match stripWord [117, 108, 108] rest with
        | some r => .ok .null r
        | none => .malformed
      else
        match scanNumber (c :: rest) with
        | some (lit, r) => .ok (.number lit) r
        | none => .malformed
  | fuel + 1, .elems acc, cs =>
    match scan fuel .value cs with
    | .ok v r =>
      match skipSpace r with
      | [] => .malformed
      | c :: rest =>
        if c = 44 then scan fuel (.elems (v :: acc)) rest
        else if c = 93 then .ok (.array (acc.reverse ++ [v])) rest
        else .malformed
    | .malformed => .malformed
    | .outOfFuel => .outOfFuel
  | fuel + 1, .members acc, cs =>
    match skipSpace cs with
    | [] => .malformed
    | q :: afterQuote =>
      if q = 34 then
        match scanString afterQuote [] with
        | .ok units r1 =>
          match skipSpace r1 with
          | [] => .malformed
          | colon :: r2 =>
            if colon = 58 then
              match scan fuel .value r2 with
              | .ok v r3 =>
                match skipSpace r3 with
                | [] => .malformed
                | c :: rest =>
                  if c = 44 then
                    scan fuel (.members ((text (joinSurrogates none units), v) :: acc)) rest
                  else if c = 125 then
                    .ok (.object (acc.reverse ++ [(text (joinSurrogates none units), v)])) rest
                  else .malformed
              | .malformed => .malformed
              | .outOfFuel => .outOfFuel
            else .malformed
        | .malformed => .malformed
        | .outOfFuel => .outOfFuel
      else .malformed

/-- Scans the first value of a text. -/
def scanValue (s : String) : Parsed Value :=
  scan (2 * (codes s).length + 2) .value (codes s)

/-- The value `Decoder.Decode` reads from a stream: the first value of the
input.  What follows an object or an array is left unread; a literal, a string
or a number has to be followed by white space or the end of the input. -/
def streamValue (s : String) : Option Value :=
  match scanValue s with
  | .ok (.object ms) _ => some (.object ms)
  | .ok (.array xs) _ => some (.array xs)
  | .ok v [] => some v
  | .ok v (c :: _) => if isSpace c then some v else none
  | _ => none

/-- The value `Unmarshal` reads: the input has to be one value, with white
space around it at most. -/
def wholeValue (s : String) : Option Value :=
  match scanValue s with
  | .ok v rest => if skipSpace rest = [] then some v else none
  | _ => none

/-- Case folding of a key or field name: letters to upper case, the Kelvin
sign to K and the long s to S. -/
def foldName (s : String) : List Nat :=
  (codes s).map fun c =>
    if 97 ≤ c ∧ c ≤ 122 then c - 32
    else if c = 8490 then 75
    else if c = 383 then 83
    else c

/-- The field a key selects: the field of that very name, else the first one
equal to it up to case. -/
def findField (names : List String) (key : String) : Option String :=
  if names.contains key then some key
  else names.find? fun n => foldName n == foldName key

/-- Stores a value in a string field: `null` leaves the field alone, anything
but a string is a type error. -/
def storeString (old : String) : Value → Option String
  | .null => some old
  | .string s => some s
  | _ => none

/-- Stores a value in a bool field. -/
def storeBool (old : Bool) : Value → Option Bool
  | .null => some old
  | .bool b => some b
  | _ => none

/-- The value of a run of decimal digits; `none` at anything else. -/
def digitsValue : List Nat → Nat → Option Nat
  | [], acc => some acc
  | c :: cs, acc => if 48 ≤ c ∧ c ≤ 57 then digitsValue cs (acc * 10 + (c - 48)) else none

/-- Stores a value in an int64 field: the literal has to be an integer in
range. -/
def storeInt64 (old : Int) : Value → Option Int
  | .null => some old
  | .number lit =>
    match lit with
    | [] => none
    | c :: rest =>
      if c = 45 then
        match digitsValue rest 0 with
        | some n => if n ≤ 9223372036854775808 then some (-(n : Int)) else none
        | none => none
      else
        match digitsValue (c :: rest) 0 with
        | some n => if n ≤ 9223372036854775807 then some (n : Int) else none
        | none => none
  | _ => none

/-- Stores the member `key: v` in a `JsProgress` of `confluenceProgress`
(field `Completed` has the tag `json:"-"` and is never set). -/
def setConfluence (js : ConfluenceJsProgress) (key : String) (v : Value) :
    Option ConfluenceJsProgress :=
  match findField ["fileName", "size", "currentStatus", "alternativePercentage",
      "concurrentBackupInProgress"] key with
  | none => some js
  | some name =>
    if name = "fileName" then
      (storeString js.FileName v).map fun x => { js with FileName := x }
    else if name = "size" then
      (storeInt64 js.Size v).map fun x => { js with Size := x }
    else if name = "currentStatus" then
      (storeString js.Status v).map fun x => { js with Status := x }
    else if name = "alternativePercentage" then
      (storeString js.Percentage v).map fun x => { js with Percentage := x }
    else
      (storeBool js.ConcurrentBackupInProgress v).map fun x =>
        { js with ConcurrentBackupInProgress := x }

/-- Stores the member `key: v` in a `JsProgress` of `jiraProgress`. -/
def setJira (js : JiraJsProgress) (key : String) (v : Value) : Option JiraJsProgress :=
  match findField ["Status", "Progress", "Description", "Result"] key with
  | none => some js
  | some name =>
    if name = "Status" then
      (storeString js.Status v).map fun x => { js with Status := x }
    else if name = "Progress" then
      (storeInt64 js.Progress v).map fun x => { js with Progress := x }
    else if name = "Description" then
      (storeString js.Description v).map fun x => { js with Description := x }
    else
      (storeString js.Result v).map fun x => { js with Result := x }

/-- Stores the member `key: v` in a `JsProgressResult`. -/
def setResult (js : JsProgressResult) (key : String) (v : Value) : Option JsProgressResult :=
  match findField ["MediaFileId", "FileName"] key with
  | none => some js
  | some name =>
    if name = "MediaFileId" then
      (storeString js.MediaFileId v).map fun x => { js with MediaFileId := x }
    else
      (storeString js.FileName v).map fun x => { js with FileName := x }

/-- Stores the members of an object one after the other; a later member
overwrites an earlier one, a type error makes the whole decoding fail. -/
def fill {α : Type} (set : α → String → Value → Option α) : List (String × Value) → α → Option α
  | [], js => some js
  | (key, v) :: ms, js =>
    match set js key v with
    | none => none
    | some js' => fill set ms js'

/-- Decodes a value into a struct: `null` leaves the struct alone, an object
fills it, anything else is a type error. -/
def intoStruct {α : Type} (set : α → String → Value → Option α) (zero : α) :
    Option Value → Option α
  | some .null => some zero
  | some (.object ms) => fill set ms zero
  | _ => none

/-- The call `json.NewDecoder(resp.Body).Decode(&jsProgress)` of
`confluenceProgress`, on a body that can be read. -/
def decodeConfluence (body : String) : Option ConfluenceJsProgress :=
  intoStruct setConfluence ⟨false, "", 0, "", "", false⟩ (streamValue body)

/-- The call `json.NewDecoder(resp.Body).Decode(&jsProgress)` of `jiraProgress`,
on a body that can be read. -/
def decodeJira (body : String) : Option JiraJsProgress :=
  intoStruct setJira ⟨"", 0, "", ""⟩ (streamValue body)

/-- The call `json.Unmarshal([]byte(jsProgress.Result), &jsProgressResult)`. -/
def unmarshalResult (data : String) : Option JsProgressResult :=
  intoStruct setResult ⟨"", ""⟩ (wholeValue data)

/-- Whether a text is one well-formed JSON value. -/
def valid (s : String) : Bool :=
  (wholeValue s).isSome

end GoJson

/-! ## Concrete inputs used in the examples -/

/-- A configuration for the wiki product, with the default timeout of three
hours. -/
def wikiConfig : Config :=
  ⟨true, false, "https://h", "u", "p", "./backup.zip", 10800000000000, true, true⟩

/-- A configuration for the issue tracker. -/
def trackerConfig : Config :=
  { wikiConfig with Confluence := false, Jira := true }

/-- A configuration with both product flags set. -/
def bothConfig : Config :=
  { wikiConfig with Jira := true }

/-- A fresh session on the wiki product. -/
def wikiSession : Atlassian :=
  ⟨wikiConfig, 1700000000000000000, 0⟩

/-- A fresh session on the issue tracker. -/
def trackerSession : Atlassian :=
  ⟨trackerConfig, 1700000000000000000, 0⟩

/-- A fresh session with both product flags set. -/
def bothSession : Atlassian :=
  ⟨bothConfig, 1700000000000000000, 0⟩

/-- The progress body of a finished wiki backup. -/
def wikiDoneBody : String :=
  "\x7b\"fileName\":\"backup-2024.zip\",\"size\":100,\"currentStatus\":\"Done\",\"alternativePercentage\":\"100%\"\x7d"

/-- The progress body of a finished issue-tracker backup. -/
def trackerSuccessBody : String :=
  "\x7b\"Status\":\"Success\",\"Result\":\"\x7b\\\"MediaFileId\\\":\\\"123\\\",\\\"FileName\\\":\\\"a.zip\\\"\x7d\"\x7d"

/-- A pass, ten seconds into the session, in which every request fails with a
non-nil response and an error. -/
def failingTick : Tick :=
  ⟨1700000010000000000, 1700000010, .failed (some ⟨0, none⟩), 1700000010,
    .failed (some ⟨0, none⟩)⟩

/-- A pass in which the wiki answers with a finished backup. -/
def wikiDoneTick : Tick :=
  ⟨1700000010000000000, 1700000010, .ok ⟨200, some wikiDoneBody⟩, 1700000010,
    .failed none⟩

/-- A pass in which the issue tracker answers with a task id and a finished
backup. -/
def trackerSuccessTick : Tick :=
  ⟨1700000010000000000, 1700000010, .ok ⟨200, some "10100"⟩, 1700000011,
    .ok ⟨200, some trackerSuccessBody⟩⟩

/-- A pass in which the progress request is answered with status 200 and a
body that is not JSON. -/
def garbageTick : Tick :=
  ⟨1700000010000000000, 1700000010, .ok ⟨200, some "<html>"⟩, 1700000011,
    .ok ⟨200, some "<html>"⟩⟩

/-- A pass whose clock reading is exactly `startTime + Timeout` of the example
sessions. -/
def deadlineTick : Tick :=
  ⟨1700010800000000000, 1700010800, .ok ⟨200, some wikiDoneBody⟩, 1700010800,
    .failed none⟩

/-- A pass in which the last-task-id request is answered with status 500 and
the progress request with a finished backup. -/
def lastTask500Tick : Tick :=
  ⟨1700000010000000000, 1700000010, .ok ⟨500, some "oops"⟩, 1700000011,
    .ok ⟨200, some trackerSuccessBody⟩⟩

/-- A pass in which the last-task-id request fails in the transport: an error
and a nil response. -/
def lastTaskDownTick : Tick :=
  ⟨1700000010000000000, 1700000010, .failed none, 1700000011,
    .ok ⟨200, some trackerSuccessBody⟩⟩

/-! ## Lemmas on `sleepAndWait` and the loop bodies -/

theorem sleepAndWait_budget {atl : Atlassian} (now : Int) (h : 4 < atl.errors) :
    sleepAndWait atl now = .fatal "Too many http errors while retrieving backup progress" := by
  simp [sleepAndWait, h]

theorem confluenceBody_budget (dc : String → Option ConfluenceJsProgress) {atl : Atlassian}
    (t : Tick) (h : 4 < atl.errors) :
    confluenceBody dc atl t =
      ⟨[], .fatal "Too many http errors while retrieving backup progress"⟩ := by
  simp [confluenceBody, sleepAndWait_budget t.now h]

theorem jiraBody_budget (dj : String → Option JiraJsProgress)
    (uj : String → Option JsProgressResult) {atl : Atlassian}
    (t : Tick) (h : 4 < atl.errors) :
    jiraBody dj uj atl t =
      ⟨[], .fatal "Too many http errors while retrieving backup progress"⟩ := by
  simp [jiraBody, sleepAndWait_budget t.now h]

theorem confluenceBody_next {dc : String → Option ConfluenceJsProgress} {atl atl' : Atlassian}
    {t : Tick} (h : (confluenceBody dc atl t).step = .next atl') :
    atl' = atl ∨ atl' = incErrors atl := by
  unfold confluenceBody doRequest at h
  repeat' (split at h)
  all_goals simp_all

theorem confluenceBody_done {dc : String → Option ConfluenceJsProgress} {atl atl' : Atlassian}
    {t : Tick} {f : String} (h : (confluenceBody dc atl t).step = .done f atl') :
    atl' = atl := by
  unfold confluenceBody doRequest at h
  repeat' (split at h)
  all_goals simp_all

theorem jiraBody_next {dj : String → Option JiraJsProgress}
    {uj : String → Option JsProgressResult} {atl atl' : Atlassian}
    {t : Tick} (h : (jiraBody dj uj atl t).step = .next atl') :
    atl' = atl ∨ atl' = incErrors atl := by
  unfold jiraBody doRequest getBody at h
  repeat' (split at h)
  all_goals simp_all

theorem jiraBody_done {dj : String → Option JiraJsProgress}
    {uj : String → Option JsProgressResult} {atl atl' : Atlassian}
    {t : Tick} {f : String} (h : (jiraBody dj uj atl t).step = .done f atl') :
    atl' = atl := by
  unfold jiraBody doRequest getBody at h
  repeat' (split at h)
  all_goals simp_all

/-- In a run of a loop whose body either keeps the state or goes through
`atl.errors++`, the counter a pass starts from is the initial counter plus the
number of earlier passes that ended as transient failures, and every pass is
the body run on the state it started from. -/
theorem pollLoop_counter (body : Atlassian → Tick → Iter)
    (hb : ∀ atl t atl', (body atl t).step = .next atl' → atl' = atl ∨ atl' = incErrors atl) :
    ∀ (ticks : List Tick) (atl : Atlassian) (k : Nat) (p : Atlassian × Iter),
      (pollLoop body atl ticks)[k]? = some p →
        p.1.errors = atl.errors +
            (((pollLoop body atl ticks).take k).filter transientFailure).length
          ∧ ∃ t, p.2 = body p.1 t := by
  intro ticks
  induction ticks with
  | nil => intro atl k p h; simp [pollLoop] at h
  | cons t ts ih =>
    intro atl k p h
    cases k with
    | zero =>
      simp [pollLoop] at h
      subst h
      exact ⟨by simp, t, rfl⟩
    | succ k =>
      rw [pollLoop] at h ⊢
      simp only [List.getElem?_cons_succ] at h
      cases hs : (body atl t).step with
      | next atl' =>
        rw [hs] at h
        simp only at h
        obtain ⟨h1, h2⟩ := ih atl' k p h
        refine ⟨?_, h2⟩
        simp only [List.take_succ_cons, List.filter_cons]
        rw [h1]
        rcases hb atl t atl' hs with e | e
        · subst e
          simp [transientFailure, hs]
        · subst e
          simp [transientFailure, hs, incErrors]
          omega
      | done f a => rw [hs] at h; simp at h
      | fatal m => rw [hs] at h; simp at h
      | panic => rw [hs] at h; simp at h

theorem returnValue_single (a a' : Atlassian) (it : Iter) (f : String)
    (h : it.step = .done f a') : returnValue [(a, it)] = some f := by
  cases it with
  | mk ev st =>
    simp only at h
    subst h
    rfl

theorem pollLoop_done (body : Atlassian → Tick → Iter) (atl a' : Atlassian) (t : Tick)
    (ts : List Tick) (f : String) (h : (body atl t).step = .done f a') :
    pollLoop body atl (t :: ts) = [(atl, body atl t)] := by
  simp [pollLoop, h]

theorem pollLoop_next (body : Atlassian → Tick → Iter) (atl a' : Atlassian) (t : Tick)
    (ts : List Tick) (h : (body atl t).step = .next a') :
    pollLoop body atl (t :: ts) = (atl, body atl t) :: pollLoop body a' ts := by
  simp [pollLoop, h]

/-! ## Properties of the program -/

/-- C5: the request `TriggerBackup` issues carries exactly the body
`{"cbAttachments": "A", "exportToCloud": "C" }`, with `A` and `C` the texts
`true` or `false` of the two flags as quoted strings; for attachments off and
export to cloud on it is `{"cbAttachments": "false", "exportToCloud": "true" }`. -/
theorem TriggerBackup_body (atl : Atlassian) (ans : Answer) :
    (TriggerBackup atl ans).1 =
        (if ans = .newRequestError then []
         else [Event.request "POST"
            (atl.config.Url ++
              (if atl.config.Jira then JIRA_BACKUP_URI else CONFLUENCE_BACKUP_URI))
            (some ("\x7b\"cbAttachments\": \"" ++ toString atl.config.Attachments
              ++ "\", \"exportToCloud\": \"" ++ toString atl.config.ExportToCloud ++ "\" \x7d"))
            false])
      ∧ (TriggerBackup
            { atl with config := { atl.config with Attachments := false, ExportToCloud := true } }
            ans).1 =
        (if ans = .newRequestError then []
         else [Event.request "POST"
            (atl.config.Url ++
              (if atl.config.Jira then JIRA_BACKUP_URI else CONFLUENCE_BACKUP_URI))
            (some "\x7b\"cbAttachments\": \"false\", \"exportToCloud\": \"true\" \x7d")
            false]) := by
  constructor
  · cases ans <;> cases ha : atl.config.Attachments <;> cases hc : atl.config.ExportToCloud <;>
      simp [TriggerBackup, doRequest, ha, hc] <;> first | rfl | (split <;> rfl)
  · cases ans
    · simp [TriggerBackup, doRequest]
    · simp [TriggerBackup, doRequest]
    · simp only [TriggerBackup, doRequest]
      split <;> rfl

/-- C1: in a run of either poll loop that starts with an error counter of 0,
the counter a pass starts from is the number of earlier passes that ended as
transient failures; once that number is five, `sleepAndWait` aborts fatally and
the pass issues no request and does not sleep; every pass that issues a request
starts from a counter of at most 4; and no pass raises the counter by more than
one. -/
theorem poll_error_budget (dc : String → Option ConfluenceJsProgress)
    (dj : String → Option JiraJsProgress) (uj : String → Option JsProgressResult)
    (atl : Atlassian) (h0 : atl.errors = 0) (ticks : List Tick)
    (run : List (Atlassian × Iter))
    (hrun : run = confluenceProgress dc atl ticks ∨ run = jiraProgress dj uj atl ticks)
    (k : Nat) (p : Atlassian × Iter) (hp : run[k]? = some p) :
    p.1.errors = (((run.take k).filter transientFailure).length : Int)
      ∧ (5 ≤ ((run.take k).filter transientFailure).length →
          (∀ now, sleepAndWait p.1 now =
              .fatal "Too many http errors while retrieving backup progress")
            ∧ p.2 = ⟨[], .fatal "Too many http errors while retrieving backup progress"⟩)
      ∧ ((∃ e ∈ p.2.events, e.isRequest = true) → p.1.errors ≤ 4)
      ∧ (∀ atl', (p.2.step = .next atl' ∨ ∃ f, p.2.step = .done f atl') →
          p.1.errors ≤ atl'.errors ∧ atl'.errors ≤ p.1.errors + 1) := by
  rcases hrun with rfl | rfl
  · obtain ⟨hc, t, ht⟩ := pollLoop_counter (confluenceBody dc)
      (fun _ _ _ h => confluenceBody_next h) ticks atl k p hp
    rw [h0, zero_add] at hc
    refine ⟨hc, ?_, ?_, ?_⟩
    · intro h5
      have h4 : 4 < p.1.errors := by
        unfold confluenceProgress at h5; omega
      exact ⟨fun now => sleepAndWait_budget now h4, by rw [ht]; exact confluenceBody_budget dc t h4⟩
    · rintro ⟨e, he, _⟩
      by_contra hcon
      have h4 : 4 < p.1.errors := by omega
      rw [ht, confluenceBody_budget dc t h4] at he
      simp at he
    · rintro atl' (h | ⟨f, h⟩)
      · rw [ht] at h
        rcases confluenceBody_next h with e | e <;> subst e <;> simp [incErrors]
      · rw [ht] at h
        have e := confluenceBody_done h
        subst e
        simp
  · obtain ⟨hc, t, ht⟩ := pollLoop_counter (jiraBody dj uj)
      (fun _ _ _ h => jiraBody_next h) ticks atl k p hp
    rw [h0, zero_add] at hc
    refine ⟨hc, ?_, ?_, ?_⟩
    · intro h5
      have h4 : 4 < p.1.errors := by
        unfold jiraProgress at h5; omega
      exact ⟨fun now => sleepAndWait_budget now h4, by rw [ht]; exact jiraBody_budget dj uj t h4⟩
    · rintro ⟨e, he, _⟩
      by_contra hcon
      have h4 : 4 < p.1.errors := by omega
      rw [ht, jiraBody_budget dj uj t h4] at he
      simp at he
    · rintro atl' (h | ⟨f, h⟩)
      · rw [ht] at h
        rcases jiraBody_next h with e | e <;> subst e <;> simp [incErrors]
      · rw [ht] at h
        have e := jiraBody_done h
        subst e
        simp

/-- Witness of C1: five failing passes of the wiki loop, then the sixth pass
aborts without a request. -/
theorem poll_error_budget_witness :
    wikiSession.errors = 0
      ∧ (confluenceProgress GoJson.decodeConfluence wikiSession
          (List.replicate 6 failingTick))[5]? =
        some (⟨wikiConfig, 1700000000000000000, 5⟩,
          ⟨[], .fatal "Too many http errors while retrieving backup progress"⟩)
      ∧ (⟨wikiConfig, 1700000000000000000, 5⟩ : Atlassian).errors =
          ((((confluenceProgress GoJson.decodeConfluence wikiSession
            (List.replicate 6 failingTick)).take 5).filter transientFailure).length : Int) :=
  ⟨rfl, by decide,
    (poll_error_budget GoJson.decodeConfluence GoJson.decodeJira GoJson.unmarshalResult
      wikiSession rfl (List.replicate 6 failingTick) _ (Or.inl rfl) 5
      (⟨wikiConfig, 1700000000000000000, 5⟩,
        ⟨[], .fatal "Too many http errors while retrieving backup progress"⟩) (by decide)).1⟩

/-- C2, as the code has it: when the elapsed time `now - startTime` is strictly
greater than the configured timeout (the clock reading being an int64 and the
int64 sum `startTime + Timeout` not wrapping below the minimum), `sleepAndWait`
aborts fatally whatever the error count, and the pass of either loop neither
sleeps nor issues a request. -/
theorem sleepAndWait_timeout (atl : Atlassian) (now : Int)
    (hnow : now ≤ 9223372036854775807)
    (hsum : -9223372036854775808 ≤ atl.startTime + atl.config.Timeout)
    (h : now - atl.startTime > atl.config.Timeout) :
    ∃ msg, sleepAndWait atl now = .fatal msg
      ∧ (∀ (dc : String → Option ConfluenceJsProgress) (t : Tick), t.now = now →
          confluenceBody dc atl t = ⟨[], .fatal msg⟩)
      ∧ (∀ (dj : String → Option JiraJsProgress) (uj : String → Option JsProgressResult)
          (t : Tick), t.now = now → jiraBody dj uj atl t = ⟨[], .fatal msg⟩) := by
  have hw : wrap64 (atl.startTime + atl.config.Timeout) < now := by
    unfold wrap64; omega
  by_cases he : atl.errors > 4
  · refine ⟨"Too many http errors while retrieving backup progress", ?_, ?_, ?_⟩
    · simp [sleepAndWait, he]
    · intro dc t ht; simp [confluenceBody, sleepAndWait, he]
    · intro dj uj t ht; simp [jiraBody, sleepAndWait, he]
  · refine ⟨"Timeout while waiting for backup completion", ?_, ?_, ?_⟩
    · simp [sleepAndWait, he, hw]
    · intro dc t ht; simp [confluenceBody, sleepAndWait, he, hw, ht]
    · intro dj uj t ht; simp [jiraBody, sleepAndWait, he, hw, ht]

/-- Witness of C2: one nanosecond past the deadline of the example session. -/
theorem sleepAndWait_timeout_witness :
    (1700010800000000001 : Int) - wikiSession.startTime > wikiSession.config.Timeout
      ∧ ∃ msg, sleepAndWait wikiSession 1700010800000000001 = .fatal msg
        ∧ (∀ (dc : String → Option ConfluenceJsProgress) (t : Tick),
            t.now = 1700010800000000001 → confluenceBody dc wikiSession t = ⟨[], .fatal msg⟩)
        ∧ (∀ (dj : String → Option JiraJsProgress) (uj : String → Option JsProgressResult)
            (t : Tick), t.now = 1700010800000000001 →
              jiraBody dj uj wikiSession t = ⟨[], .fatal msg⟩) :=
  ⟨by decide, sleepAndWait_timeout wikiSession 1700010800000000001 (by decide) (by decide)
    (by decide)⟩

/-- Counterexample to C2 as stated: with the elapsed time equal to the timeout
(and no errors), `sleepAndWait` sleeps and returns, and the wiki loop issues its
progress request. -/
theorem sleepAndWait_at_deadline_continues :
    deadlineTick.now - wikiSession.startTime ≥ wikiSession.config.Timeout
      ∧ sleepAndWait wikiSession deadlineTick.now = .slept 10000000000
      ∧ (confluenceBody GoJson.decodeConfluence wikiSession deadlineTick).events =
        [.sleep 10000000000,
          .request "GET" "https://h/wiki/rest/obm/1.0/getprogress.json?_=1700010800" none false] := by
  decide

/-- C3: in `confluenceProgress`, on a status-200 progress response whose body
decodes to `js`, the pass ends the loop exactly when `js.FileName` is non-empty,
and the method then returns `js.FileName`; with an empty `FileName` the loop
goes on to the next pass from the unchanged state.  With the model of
`encoding/json`, the body
`{"fileName":"backup-2024.zip","size":100,"currentStatus":"Done","alternativePercentage":"100%"}`
makes the method return `backup-2024.zip`. -/
theorem confluence_decoded_response (decode : String → Option ConfluenceJsProgress)
    (atl : Atlassian) (t : Tick) (ts : List Tick) (d : Int) (resp : Response)
    (body : String) (js : ConfluenceJsProgress)
    (hw : sleepAndWait atl t.now = .slept d) (ha : t.answer1 = .ok resp)
    (hs : resp.StatusCode = 200) (hb : resp.Body = some body) (hd : decode body = some js) :
    ((∃ f a, (confluenceBody decode atl t).step = .done f a) ↔ js.FileName ≠ "")
      ∧ (js.FileName ≠ "" →
          (confluenceBody decode atl t).step = .done js.FileName atl
            ∧ confluenceProgress decode atl (t :: ts) = [(atl, confluenceBody decode atl t)]
            ∧ returnValue (confluenceProgress decode atl (t :: ts)) = some js.FileName)
      ∧ (js.FileName = "" →
          (confluenceBody decode atl t).step = .next atl
            ∧ confluenceProgress decode atl (t :: ts) =
              (atl, confluenceBody decode atl t) :: confluenceProgress decode atl ts)
      ∧ (body = wikiDoneBody →
          returnValue (confluenceProgress GoJson.decodeConfluence atl (t :: ts)) =
            some "backup-2024.zip") := by
  have key : ∀ (dec : String → Option ConfluenceJsProgress) (x : ConfluenceJsProgress),
      dec body = some x →
      (confluenceBody dec atl t).step =
        if x.FileName ≠ "" then .done x.FileName atl else .next atl := by
    intro dec x hx
    by_cases hf : x.FileName = "" <;>
      simp [confluenceBody, hw, ha, doRequest, hs, hb, hx, hf]
  have hstep := key decode js hd
  refine ⟨?_, ?_, ?_, ?_⟩
  · rw [hstep]
    by_cases hf : js.FileName = "" <;> simp [hf]
  · intro hf
    rw [if_pos hf] at hstep
    refine ⟨hstep, ?_, ?_⟩
    · exact pollLoop_done _ _ _ _ _ _ hstep
    · unfold confluenceProgress
      rw [pollLoop_done _ _ _ _ _ _ hstep]
      exact returnValue_single _ _ _ _ hstep
  · intro hf
    rw [if_neg (by simpa using hf)] at hstep
    exact ⟨hstep, pollLoop_next _ _ _ _ _ hstep⟩
  · intro hbody
    have hgo : GoJson.decodeConfluence body =
        some ⟨false, "backup-2024.zip", 100, "Done", "100%", false⟩ := by
      rw [hbody]; decide
    have h1 := key GoJson.decodeConfluence _ hgo
    rw [if_pos (by decide)] at h1
    unfold confluenceProgress
    rw [pollLoop_done _ _ _ _ _ _ h1]
    exact returnValue_single _ _ _ _ h1

/-- Witness of C3: the example response in a fresh wiki session. -/
theorem confluence_decoded_response_witness :
    sleepAndWait wikiSession wikiDoneTick.now = .slept 10000000000
      ∧ GoJson.decodeConfluence wikiDoneBody =
        some ⟨false, "backup-2024.zip", 100, "Done", "100%", false⟩
      ∧ returnValue (confluenceProgress GoJson.decodeConfluence wikiSession
          (wikiDoneTick :: [failingTick])) = some "backup-2024.zip" :=
  ⟨by decide, by decide,
    (confluence_decoded_response GoJson.decodeConfluence wikiSession wikiDoneTick [failingTick]
      10000000000 ⟨200, some wikiDoneBody⟩ wikiDoneBody
      ⟨false, "backup-2024.zip", 100, "Done", "100%", false⟩
      (by decide) rfl rfl rfl (by decide)).2.2.2 rfl⟩

/-- C4: in `jiraProgress`, on a status-200 progress response whose body decodes
to `js`: when `js.Status` is `Success` and `js.Result` decodes to a result with
`MediaFileId` m and `FileName` f, the pass ends the loop and the method returns
`m ++ "/" ++ f`; when `js.Status` is not `Success`, the loop goes on to the next
pass from the unchanged state.  With the model of `encoding/json`, the body
`{"Status":"Success","Result":"{\"MediaFileId\":\"123\",\"FileName\":\"a.zip\"}"}`
makes the method return `123/a.zip`. -/
theorem jira_decoded_response (decode : String → Option JiraJsProgress)
    (unmarshal : String → Option JsProgressResult)
    (atl : Atlassian) (t : Tick) (ts : List Tick) (d : Int) (resp1 resp : Response)
    (body : String) (js : JiraJsProgress)
    (hw : sleepAndWait atl t.now = .slept d) (ha1 : t.answer1 = .ok resp1)
    (ha2 : t.answer2 = .ok resp)
    (hs : resp.StatusCode = 200) (hb : resp.Body = some body) (hd : decode body = some js) :
    (∀ res, js.Status = "Success" → unmarshal js.Result = some res →
        (jiraBody decode unmarshal atl t).step =
            .done (res.MediaFileId ++ "/" ++ res.FileName) atl
          ∧ jiraProgress decode unmarshal atl (t :: ts) =
            [(atl, jiraBody decode unmarshal atl t)]
          ∧ returnValue (jiraProgress decode unmarshal atl (t :: ts)) =
            some (res.MediaFileId ++ "/" ++ res.FileName))
      ∧ (js.Status ≠ "Success" →
          (jiraBody decode unmarshal atl t).step = .next atl
            ∧ jiraProgress decode unmarshal atl (t :: ts) =
              (atl, jiraBody decode unmarshal atl t) :: jiraProgress decode unmarshal atl ts)
      ∧ (body = trackerSuccessBody →
          returnValue (jiraProgress GoJson.decodeJira GoJson.unmarshalResult atl (t :: ts)) =
            some "123/a.zip") := by
  have key : ∀ (dec : String → Option JiraJsProgress) (un : String → Option JsProgressResult)
      (x : JiraJsProgress) (res : JsProgressResult),
      dec body = some x → x.Status = "Success" → un x.Result = some res →
      (jiraBody dec un atl t).step = .done (res.MediaFileId ++ "/" ++ res.FileName) atl := by
    intro dec un x res hx hst hres
    simp [jiraBody, hw, ha1, ha2, doRequest, getBody, hs, hb, hx, hst, hres]
  refine ⟨?_, ?_, ?_⟩
  · intro res hst hres
    have hstep := key decode unmarshal js res hd hst hres
    refine ⟨hstep, ?_, ?_⟩
    · exact pollLoop_done _ _ _ _ _ _ hstep
    · unfold jiraProgress
      rw [pollLoop_done _ _ _ _ _ _ hstep]
      exact returnValue_single _ _ _ _ hstep
  · intro hst
    have hstep : (jiraBody decode unmarshal atl t).step = .next atl := by
      simp [jiraBody, hw, ha1, ha2, doRequest, getBody, hs, hb, hd, hst]
    exact ⟨hstep, pollLoop_next _ _ _ _ _ hstep⟩
  · intro hbody
    have hgo : GoJson.decodeJira body = some ⟨"Success", 0, "",
        "\x7b\"MediaFileId\":\"123\",\"FileName\":\"a.zip\"\x7d"⟩ := by
      rw [hbody]; decide
    have hres : GoJson.unmarshalResult
        "\x7b\"MediaFileId\":\"123\",\"FileName\":\"a.zip\"\x7d" = some ⟨"123", "a.zip"⟩ := by
      decide
    have h1 := key GoJson.decodeJira GoJson.unmarshalResult _ _ hgo rfl hres
    have h2 : ("123" : String) ++ "/" ++ "a.zip" = "123/a.zip" := by decide
    rw [h2] at h1
    unfold jiraProgress
    rw [pollLoop_done _ _ _ _ _ _ h1]
    exact returnValue_single _ _ _ _ h1

/-- Witness of C4: the example response in a fresh issue-tracker session. -/
theorem jira_decoded_response_witness :
    sleepAndWait trackerSession trackerSuccessTick.now = .slept 10000000000
      ∧ GoJson.decodeJira trackerSuccessBody = some ⟨"Success", 0, "",
          "\x7b\"MediaFileId\":\"123\",\"FileName\":\"a.zip\"\x7d"⟩
      ∧ returnValue (jiraProgress GoJson.decodeJira GoJson.unmarshalResult trackerSession
          (trackerSuccessTick :: [failingTick])) = some "123/a.zip" :=
  ⟨by decide, by decide,
    (jira_decoded_response GoJson.decodeJira GoJson.unmarshalResult trackerSession
      trackerSuccessTick [failingTick] 10000000000 ⟨200, some "10100"⟩
      ⟨200, some trackerSuccessBody⟩ trackerSuccessBody
      ⟨"Success", 0, "", "\x7b\"MediaFileId\":\"123\",\"FileName\":\"a.zip\"\x7d"⟩
      (by decide) rfl rfl rfl rfl (by decide)).2.2 rfl⟩

/-- C8: in both poll loops, a status-200 progress response whose body cannot be
decoded ends the pass like a failed request: the counter goes up by exactly
one, no file name is returned and the loop goes on to the next pass.  In
`jiraProgress` the same holds when `Status` is `Success` and the embedded
`Result` text does not decode. -/
theorem undecodable_counts_as_error (dc : String → Option ConfluenceJsProgress)
    (dj : String → Option JiraJsProgress) (uj : String → Option JsProgressResult)
    (atl : Atlassian) (t : Tick) (ts : List Tick) (d : Int) (resp : Response)
    (hw : sleepAndWait atl t.now = .slept d) (hs : resp.StatusCode = 200) :
    (incErrors atl).errors = atl.errors + 1
      ∧ (t.answer1 = .ok resp → resp.Body.bind dc = none →
          (confluenceBody dc atl t).step = .next (incErrors atl)
            ∧ confluenceProgress dc atl (t :: ts) =
              (atl, confluenceBody dc atl t) :: confluenceProgress dc (incErrors atl) ts
            ∧ confluenceBody dc atl t =
              confluenceBody dc atl { t with answer1 := .failed none })
      ∧ (∀ resp1, t.answer1 = .ok resp1 → t.answer2 = .ok resp →
          (resp.Body.bind dj = none
            ∨ ∃ js, resp.Body.bind dj = some js ∧ js.Status = "Success"
                ∧ uj js.Result = none) →
          (jiraBody dj uj atl t).step = .next (incErrors atl)
            ∧ jiraProgress dj uj atl (t :: ts) =
              (atl, jiraBody dj uj atl t) :: jiraProgress dj uj (incErrors atl) ts
            ∧ jiraBody dj uj atl t = jiraBody dj uj atl { t with answer2 := .failed none }) := by
  refine ⟨rfl, ?_, ?_⟩
  · intro ha hdec
    have hbody : confluenceBody dc atl t =
        confluenceBody dc atl { t with answer1 := .failed none } := by
      simp [confluenceBody, hw, ha, doRequest, hs, hdec]
    have hstep : (confluenceBody dc atl t).step = .next (incErrors atl) := by
      simp [confluenceBody, hw, ha, doRequest, hs, hdec]
    exact ⟨hstep, pollLoop_next _ _ _ _ _ hstep, hbody⟩
  · intro resp1 ha1 ha2 hdec
    have hbody : jiraBody dj uj atl t =
        jiraBody dj uj atl { t with answer2 := .failed none } := by
      rcases hdec with hdec | ⟨js, hjs, hst, hres⟩
      · simp [jiraBody, hw, ha1, ha2, doRequest, getBody, hs, hdec]
      · simp [jiraBody, hw, ha1, ha2, doRequest, getBody, hs, hjs, hst, hres]
    have hstep : (jiraBody dj uj atl t).step = .next (incErrors atl) := by
      rcases hdec with hdec | ⟨js, hjs, hst, hres⟩
      · simp [jiraBody, hw, ha1, ha2, doRequest, getBody, hs, hdec]
      · simp [jiraBody, hw, ha1, ha2, doRequest, getBody, hs, hjs, hst, hres]
    exact ⟨hstep, pollLoop_next _ _ _ _ _ hstep, hbody⟩

/-- Witness of C8: a status-200 answer with an html body, in both loops. -/
theorem undecodable_counts_as_error_witness :
    sleepAndWait wikiSession garbageTick.now = .slept 10000000000
      ∧ GoJson.decodeConfluence "<html>" = none
      ∧ (confluenceBody GoJson.decodeConfluence wikiSession garbageTick).step =
        .next ⟨wikiConfig, 1700000000000000000, 1⟩ :=
  ⟨by decide, by decide,
    ((undecodable_counts_as_error GoJson.decodeConfluence GoJson.decodeJira
      GoJson.unmarshalResult wikiSession garbageTick [] 10000000000 ⟨200, some "<html>"⟩
      (by decide) rfl).2.1 rfl (by decide)).1⟩

/-- C6, the code at the failing input: the last-task-id request is answered
with status 500 and body `oops`; `jiraProgress` does not count a failure, puts
the body into the url of the progress request, and returns a file name with the
error counter unchanged. -/
theorem jira_lastTaskId_status_not_checked :
    jiraBody GoJson.decodeJira GoJson.unmarshalResult trackerSession lastTask500Tick =
      ⟨[.sleep 10000000000,
        .request "GET" "https://h/rest/backup/1/export/lastTaskId?_=1700000010" none false,
        .request "GET" "https://h/rest/internal/2/task/progress/oops?_=1700000011" none false],
       .done "123/a.zip" trackerSession⟩ := by
  decide

/-- C7, the code at the failing input: the last-task-id request fails with an
error and a nil response; the error branch calls `getBody` on the nil response
and the pass ends in a nil-pointer panic, before the counter is incremented. -/
theorem jira_lastTaskId_transport_error_panics (dj : String → Option JiraJsProgress)
    (uj : String → Option JsProgressResult) :
    jiraBody dj uj trackerSession lastTaskDownTick =
        ⟨[.sleep 10000000000,
          .request "GET" "https://h/rest/backup/1/export/lastTaskId?_=1700000010" none false],
         .panic⟩
      ∧ jiraProgress dj uj trackerSession (lastTaskDownTick :: [trackerSuccessTick]) =
        [(trackerSession, jiraBody dj uj trackerSession lastTaskDownTick)] := by
  have h : jiraBody dj uj trackerSession lastTaskDownTick =
        ⟨[.sleep 10000000000,
          .request "GET" "https://h/rest/backup/1/export/lastTaskId?_=1700000010" none false],
         .panic⟩ := by
    have hw : sleepAndWait trackerSession 1700000010000000000 = .slept 10000000000 := by
      decide
    have hu : trackerSession.config.Url ++
        (JIRA_LAST_TASK_URI ++ "?_=" ++ toString lastTaskDownTick.stamp1) =
        "https://h/rest/backup/1/export/lastTaskId?_=1700000010" := by decide
    simp only [jiraBody, doRequest, getBody, lastTaskDownTick, hw] at hu ⊢
    rw [hu]
  refine ⟨h, ?_⟩
  simp [jiraProgress, pollLoop, h]

/-- C9, the code at the failing input: with the password `a"b` the body that
`Login` sends is `{"username": "u", "password": "a"b"}`, on which the scanner
stops with a syntax error: it is not well-formed JSON. -/
theorem Login_body_not_json :
    (Login { wikiConfig with Password := "a\"b" } 1700000000000000000
        (.ok ⟨200, some ""⟩)).1 =
      [.request "POST" "https://h/rest/auth/1/session"
        (some "\x7b\"username\": \"u\", \"password\": \"a\"b\"\x7d") false]
    ∧ (GoJson.scanValue "\x7b\"username\": \"u\", \"password\": \"a\"b\"\x7d").isMalformed
        = true
    ∧ GoJson.valid "\x7b\"username\": \"u\", \"password\": \"a\"b\"\x7d" = false := by
  decide

/-- C10, the code at the failing input: with both product flags set,
`LoadConfig` accepts the configuration, `TriggerBackup` posts to the
issue-tracker endpoint, `GetFileName` runs the wiki loop (its request goes to the
wiki progress endpoint), and `Download` fetches from the issue-tracker endpoint
again. -/
theorem both_flags_mix_products :
    LoadConfig.accepts bothConfig = true
      ∧ (TriggerBackup bothSession (.ok ⟨200, some ""⟩)).1 =
        [.request "POST" "https://h/rest/backup/1/export/runbackup"
          (some "\x7b\"cbAttachments\": \"true\", \"exportToCloud\": \"true\" \x7d") false]
      ∧ (∀ dc dj uj ticks, GetFileName dc dj uj bothSession ticks =
          confluenceProgress dc bothSession ticks)
      ∧ GetFileName GoJson.decodeConfluence GoJson.decodeJira GoJson.unmarshalResult bothSession
          [wikiDoneTick] =
        [(bothSession,
          ⟨[.sleep 10000000000,
            .request "GET" "https://h/wiki/rest/obm/1.0/getprogress.json?_=1700000010" none false],
           .done "backup-2024.zip" bothSession⟩)]
      ∧ (Download bothSession "backup-2024.zip" (.ok ⟨200, some "zip"⟩) true (some 3)).1 =
        [.request "GET" "https://h/plugins/servlet/export/download/backup-2024.zip" none true] := by
  refine ⟨by decide, by decide, ?_, by decide, by decide⟩
  intro dc dj uj ticks
  rfl

end JiraConfluenceBackup
